import Mathlib

/-!
Shallow embedding of `src/Creational/Abstract_factory.py`.

The Python file defines an Abstract Factory example: an abstract factory
`FurnitureFactory` with two concrete factories (`ClassicalFurniture`,
`ModernFuniture` — the source spells it `Funiture`), abstract products
`Chair` and `Sofa` each with two concrete variants, and a `client_code`
routine that prints two lines.  All classes are stateless: every method is
a pure string construction, so each class hierarchy is embedded as a closed
inductive type (one constructor per concrete class, mirroring Python class
identity) and each method as a total function on it.
-/

namespace AbstractFactory

/-- The concrete implementers of the abstract `Chair` product interface. -/
inductive Chair where
  | ClassicalChair
  | ModernChair
  deriving DecidableEq

/-- The concrete implementers of the abstract `Sofa` product interface. -/
inductive Sofa where
  | ClassicalSofa
  | ModernSofa
  deriving DecidableEq

/-- The concrete implementers of the abstract `FurnitureFactory` interface.
`ModernFuniture` keeps the source's spelling. -/
inductive FurnitureFactory where
  | ClassicalFurniture
  | ModernFuniture
  deriving DecidableEq

/-- The two product-family variants of the example. -/
inductive Variant where
  | Classical
  | Modern
  deriving DecidableEq

/-- `Chair.can_sit`: each concrete chair returns its fixed sentence
(source lines 73-74 and 79-80). -/
def Chair.can_sit : Chair → String
  | .ClassicalChair => "You can sit on it from Classical Chair"
  | .ModernChair => "You can sit on it from Modern Chair"

/-- `Sofa.can_sleep`: each concrete sofa returns its fixed sentence
(source lines 119-120 and 129-130; note the lowercase `you` in the
Classical variant). -/
def Sofa.can_sleep : Sofa → String
  | .ClassicalSofa => "you can sleep from Classical sofa"
  | .ModernSofa => "You can sleep from Modern sofa"

/-- `Sofa.can_sit`: each concrete sofa calls `collaborator.can_sit()` and
interpolates the result into its f-string template (source lines 115-117
and 125-127; the Classical template spells `collabortaor`). -/
def Sofa.can_sit : Sofa → Chair → String
  | .ClassicalSofa, collaborator =>
      let result := collaborator.can_sit
      "You can sit on it from Classical sofa, with collabortaor (" ++ result ++ ")"
  | .ModernSofa, collaborator =>
      let result := collaborator.can_sit
      "You can sit on it from Modern sofa, with collaborator (" ++ result ++ ")"

/-- `create_chair` of each concrete factory (source lines 36-37 and 48-49). -/
def FurnitureFactory.create_chair : FurnitureFactory → Chair
  | .ClassicalFurniture => .ClassicalChair
  | .ModernFuniture => .ModernChair

/-- `create_sofa` of each concrete factory (source lines 39-40 and 51-52). -/
def FurnitureFactory.create_sofa : FurnitureFactory → Sofa
  | .ClassicalFurniture => .ClassicalSofa
  | .ModernFuniture => .ModernSofa

/-- `client_code(factory)`: creates one chair and one sofa from the factory
and prints `sofa.can_sleep()` then `sofa.can_sit(chair)`; embedded as the
list of printed lines, in order (source lines 133-143). -/
def client_code (factory : FurnitureFactory) : List String :=
  let chair := factory.create_chair
  let sofa := factory.create_sofa
  [sofa.can_sleep, sofa.can_sit chair]

/-- The variant a concrete chair class belongs to. -/
def chairVariant : Chair → Variant
  | .ClassicalChair => .Classical
  | .ModernChair => .Modern

/-- The variant a concrete sofa class belongs to. -/
def sofaVariant : Sofa → Variant
  | .ClassicalSofa => .Classical
  | .ModernSofa => .Modern

/-- The variant a concrete factory class produces. -/
def factoryVariant : FurnitureFactory → Variant
  | .ClassicalFurniture => .Classical
  | .ModernFuniture => .Modern

/-- The printed name of a variant. -/
def Variant.name : Variant → String
  | .Classical => "Classical"
  | .Modern => "Modern"

/-- Number of positions of `s` at which the pattern `t` starts, i.e. the
number of occurrences of `t` in `s` as a contiguous sublist. -/
def countOcc (t s : List Char) : Nat :=
  ((List.range (s.length + 1)).filter (fun i => List.isPrefixOf t (s.drop i))).length

/-- `t` occurs in `s` as a contiguous substring. -/
def strContains (s t : String) : Prop :=
  0 < countOcc t.data s.data

instance (s t : String) : Decidable (strContains s t) := by
  unfold strContains; infer_instance

/-- The fixed part of each sofa's `can_sit` template, before the opening
parenthesis that encloses the collaborator's sentence. -/
def sofaSitHeader : Sofa → String
  | .ClassicalSofa => "You can sit on it from Classical sofa, with collabortaor "
  | .ModernSofa => "You can sit on it from Modern sofa, with collaborator "

end AbstractFactory

namespace AbstractFactory

/-- Sanity: each sofa's `can_sit` is its header, then the collaborator's
sentence in parentheses, with nothing after. -/
theorem sofa_can_sit_decomp (s : Sofa) (c : Chair) :
    s.can_sit c = sofaSitHeader s ++ "(" ++ c.can_sit ++ ")" := by
  cases s <;> cases c <;> rfl

/-- C1: each concrete factory constructs both of its products from its own
variant: `ClassicalFurniture` yields `ClassicalChair` and `ClassicalSofa`,
`ModernFuniture` yields `ModernChair` and `ModernSofa`; hence for every
factory the variants of its chair and its sofa agree with the factory's. -/
theorem factory_products_match_variant :
    FurnitureFactory.create_chair .ClassicalFurniture = .ClassicalChair ∧
    FurnitureFactory.create_sofa .ClassicalFurniture = .ClassicalSofa ∧
    FurnitureFactory.create_chair .ModernFuniture = .ModernChair ∧
    FurnitureFactory.create_sofa .ModernFuniture = .ModernSofa ∧
    ∀ f : FurnitureFactory,
      chairVariant f.create_chair = factoryVariant f ∧
      sofaVariant f.create_sofa = factoryVariant f := by
  refine ⟨rfl, rfl, rfl, rfl, ?_⟩
  intro f; cases f <;> exact ⟨rfl, rfl⟩

/-- C2: the client routine on the Classical factory prints exactly two
lines, `"you can sleep from Classical sofa"` then `"You can sit on it from
Classical sofa, with collabortaor (You can sit on it from Classical
Chair)"`, in that order. -/
theorem client_code_classical :
    client_code .ClassicalFurniture =
      ["you can sleep from Classical sofa",
       "You can sit on it from Classical sofa, with collabortaor (You can sit on it from Classical Chair)"] := by
  rfl

/-- C3: the client routine on the Modern factory prints exactly two lines,
`"You can sleep from Modern sofa"` then `"You can sit on it from Modern
sofa, with collaborator (You can sit on it from Modern Chair)"`, in that
order. -/
theorem client_code_modern :
    client_code .ModernFuniture =
      ["You can sleep from Modern sofa",
       "You can sit on it from Modern sofa, with collaborator (You can sit on it from Modern Chair)"] := by
  rfl

/-- C4: for every factory variant, the string returned by
`create_sofa().can_sit(create_chair())` contains the exact string returned
by `create_chair().can_sit()` as a contiguous substring. -/
theorem sofa_can_sit_embeds_chair (f : FurnitureFactory) :
    strContains (f.create_sofa.can_sit f.create_chair) f.create_chair.can_sit := by
  cases f <;> decide

/-- C5 counterexample: at `c = ClassicalChair`, the Classical sofa's
`can_sit` does NOT produce the template with the spelling `collaborator`;
the source literal is misspelled `collabortaor`. -/
theorem classical_sofa_template_misspelled :
    Sofa.can_sit .ClassicalSofa .ClassicalChair ≠
      "You can sit on it from Classical sofa, with collaborator ("
        ++ Chair.can_sit .ClassicalChair ++ ")" := by
  decide

/-- C5 (amended): the Classical sofa's `can_sit(collaborator)` invokes
`collaborator.can_sit()` and interpolates its result into the template
`"You can sit on it from Classical sofa, with collabortaor (<chair's
sentence>)"` — with the source's spelling `collabortaor`: for every chair
`c` the returned string is that template around `c.can_sit()`. -/
theorem classical_sofa_can_sit_template (c : Chair) :
    Sofa.can_sit .ClassicalSofa c =
      "You can sit on it from Classical sofa, with collabortaor ("
        ++ c.can_sit ++ ")" := by
  cases c <;> rfl

/-- C6: for every factory variant, the chair's `can_sit()` string contains
the factory's variant name and the substring `"Chair"`. -/
theorem chair_can_sit_names_variant (f : FurnitureFactory) :
    strContains f.create_chair.can_sit (factoryVariant f).name ∧
    strContains f.create_chair.can_sit "Chair" := by
  cases f <;> exact ⟨by decide, by decide⟩

/-- C7: for every factory variant, the sofa's `can_sleep()` string contains
the factory's variant name and the substring `"sofa"`. -/
theorem sofa_can_sleep_names_variant (f : FurnitureFactory) :
    strContains f.create_sofa.can_sleep (factoryVariant f).name ∧
    strContains f.create_sofa.can_sleep "sofa" := by
  cases f <;> exact ⟨by decide, by decide⟩

/-- C8: cross-variant collaboration is accepted (the `can_sit` functions
are total, so each call returns a string), and for each mismatched pairing
the embedded collaborator sentence — the parenthesized part at the end —
is the chair's own sentence, which names the chair's variant and not the
sofa's. -/
theorem cross_variant_collaboration :
    (Sofa.can_sit .ModernSofa .ClassicalChair =
       sofaSitHeader .ModernSofa ++ "(" ++ Chair.can_sit .ClassicalChair ++ ")" ∧
     strContains (Chair.can_sit .ClassicalChair) "Classical" ∧
     ¬ strContains (Chair.can_sit .ClassicalChair) "Modern") ∧
    (Sofa.can_sit .ClassicalSofa .ModernChair =
       sofaSitHeader .ClassicalSofa ++ "(" ++ Chair.can_sit .ModernChair ++ ")" ∧
     strContains (Chair.can_sit .ModernChair) "Modern" ∧
     ¬ strContains (Chair.can_sit .ModernChair) "Classical") := by
  exact ⟨⟨rfl, by decide, by decide⟩, ⟨rfl, by decide, by decide⟩⟩

/-- C9: every operation is deterministic: two invocations of the same
operation with equal receivers and equal arguments return equal strings
(and equal products); since each operation is embedded as a pure function
of its receiver and arguments alone, no operation reads or writes any
other state. -/
theorem operations_deterministic :
    (∀ f g : FurnitureFactory, f = g →
       f.create_chair = g.create_chair ∧ f.create_sofa = g.create_sofa) ∧
    (∀ c d : Chair, c = d → c.can_sit = d.can_sit) ∧
    (∀ s t : Sofa, s = t → s.can_sleep = t.can_sleep) ∧
    (∀ (s t : Sofa) (c d : Chair), s = t → c = d → s.can_sit c = t.can_sit d) ∧
    (∀ f g : FurnitureFactory, f = g → client_code f = client_code g) := by
  refine ⟨?_, ?_, ?_, ?_, ?_⟩
  · intro f g h; subst h; exact ⟨rfl, rfl⟩
  · intro c d h; subst h; rfl
  · intro s t h; subst h; rfl
  · intro s t c d h h2; subst h; subst h2; rfl
  · intro f g h; subst h; rfl

/-- C9 witness: the determinism statement applied at concrete inputs. -/
theorem operations_deterministic_witness :
    FurnitureFactory.create_chair .ClassicalFurniture =
      FurnitureFactory.create_chair .ClassicalFurniture ∧
    Sofa.can_sit .ModernSofa .ModernChair = Sofa.can_sit .ModernSofa .ModernChair :=
  ⟨(operations_deterministic.1 .ClassicalFurniture .ClassicalFurniture rfl).1,
   operations_deterministic.2.2.2.1 .ModernSofa .ModernSofa .ModernChair .ModernChair rfl rfl⟩

/-- C10: a sofa's `can_sit` output depends on the collaborator only through
the collaborator's `can_sit()` result — chairs with equal sentences yield
equal sofa outputs — and the collaborator's sentence occurs exactly once in
the sofa's output, enclosed in parentheses at the end. -/
theorem sofa_can_sit_depends_only_on_result :
    (∀ (s : Sofa) (c d : Chair), c.can_sit = d.can_sit →
       s.can_sit c = s.can_sit d) ∧
    (∀ (s : Sofa) (c : Chair),
       countOcc c.can_sit.data (s.can_sit c).data = 1 ∧
       s.can_sit c = sofaSitHeader s ++ "(" ++ c.can_sit ++ ")") := by
  constructor
  · intro s c d h
    rw [sofa_can_sit_decomp, sofa_can_sit_decomp, h]
  · intro s c
    refine ⟨?_, sofa_can_sit_decomp s c⟩
    cases s <;> cases c <;> decide

/-- C10 witness: the dependence statement applied at concrete inputs. -/
theorem sofa_can_sit_depends_only_on_result_witness :
    Sofa.can_sit .ClassicalSofa .ModernChair = Sofa.can_sit .ClassicalSofa .ModernChair :=
  sofa_can_sit_depends_only_on_result.1 .ClassicalSofa .ModernChair .ModernChair rfl

end AbstractFactory
